import Mathlib

/-!
Shallow embedding of the gayfeather ECS runtime (src/src/ECS.ts) and proofs
about it.

Modelling conventions:
- JavaScript objects are Lean structures; a `Component`'s reference identity is
  modelled by an extra `oid : Nat` field (two distinct allocations get distinct
  `oid`s), since `Array.prototype.indexOf` compares by `===`.
- A field that may be `undefined` in JavaScript is an `Option`.
- A method that may throw returns `Except JSError _`; methods that mutate
  shared state and may throw midway return the mutated state together with
  `Option JSError` so that mutations surviving a throw are observable.
- `Map` (insertion ordered, unique keys) is an association list with
  `mapGet` / `mapSet` / `mapDelete` mirroring `get` / `set` / `delete`.
-/

namespace ECS

/-- Entity identifiers are strings (uuid.v4 values) in the source. -/
abbrev Entity := String

/-- The closed operation set of a tag comparison: `"is" | "is not" | "starts with"`. -/
inductive TagOperation where
  | isOp
  | isNotOp
  | startsWithOp
deriving DecidableEq

/-- The `TagComparison` interface: one operation plus its comparison operand. -/
structure TagComparison where
  operation : TagOperation
  comparison : String
deriving DecidableEq

/-- The `Component` interface: a record with a string `tag`. The `oid` field
models JavaScript reference identity of the component object (it is not a
field of the source interface): equality of `oid`s is `===`. -/
structure Component where
  tag : String
  oid : Nat
deriving DecidableEq

/-- Errors a modelled method can throw. `typeError` stands for the TypeError
raised by a property access on `undefined`; `entityNotFound e` stands for the
`Error` thrown by `Engine._getEntity`; `thrown` stands for an exception raised
by user-supplied system code. -/
inductive JSError where
  | typeError
  | entityNotFound (entity : Entity)
  | thrown
deriving DecidableEq

/-- The `queryType` discriminator: `"single" | "many"`. -/
inductive QType where
  | single
  | many
deriving DecidableEq

/-- Body of the callback passed to `Array.prototype.some` in
`BaseQuery.matches`: does one tag comparison hold of the component's tag?
The source's final `throw` branch (unknown operation) is unreachable because
`TagOperation` is the closed union type. -/
def tagComparisonHolds (v : TagComparison) (component : Component) : Bool :=
  match v.operation with
  | TagOperation.isOp => component.tag == v.comparison
  | TagOperation.isNotOp => component.tag != v.comparison
  | TagOperation.startsWithOp => component.tag.startsWith v.comparison

/-- State of a `BaseQuery` object (the subclasses `SingleQuery` / `ManyQuery`
only fix `queryType`). `_queryTags` is `Option` because the field can be
`undefined`. -/
structure BaseQuery where
  queryType : QType
  _queryTags : Option (List TagComparison)
deriving DecidableEq

/-- Models `BaseQuery`'s constructor. Its body is
`this._queryTags = this._queryTags;` — the field is still `undefined` when the
right-hand side reads it, so the `queryTags` argument is discarded and the
field remains `undefined` (`none`). -/
def BaseQuery.construct (queryType : QType) (_queryTags : List TagComparison) : BaseQuery :=
  { queryType := queryType, _queryTags := none }

/-- Value of `new SingleQuery(queryTags)`. -/
def SingleQuery.make (queryTags : List TagComparison) : BaseQuery :=
  BaseQuery.construct QType.single queryTags

/-- Value of `new ManyQuery(queryTags)`. -/
def ManyQuery.make (queryTags : List TagComparison) : BaseQuery :=
  BaseQuery.construct QType.many queryTags

/-- `BaseQuery.matches`: `this._queryTags.some(v => ...)`. When `_queryTags`
is `undefined` the `.some` access throws a TypeError; otherwise it is the
disjunction of the tag comparisons over the component's tag. -/
def BaseQuery.matches (q : BaseQuery) (component : Component) : Except JSError Bool :=
  match q._queryTags with
  | none => Except.error JSError.typeError
  | some tags => Except.ok (tags.any fun v => tagComparisonHolds v component)

/-- `Array.prototype.find` with a predicate that may throw: returns the first
element for which the predicate is true (`some c`), `none` (undefined) if the
predicate is false everywhere, and propagates the first exception the
predicate raises. -/
def jsFind (p : Component → Except JSError Bool) : List Component → Except JSError (Option Component)
  | [] => Except.ok none
  | c :: rest =>
    match p c with
    | Except.error e => Except.error e
    | Except.ok true => Except.ok (some c)
    | Except.ok false => jsFind p rest

/-- `Array.prototype.filter` with a predicate that may throw: keeps the
elements for which the predicate is true, in order, and propagates the first
exception the predicate raises. -/
def jsFilter (p : Component → Except JSError Bool) : List Component → Except JSError (List Component)
  | [] => Except.ok []
  | c :: rest =>
    match p c with
    | Except.error e => Except.error e
    | Except.ok b =>
      match jsFilter p rest with
      | Except.error e => Except.error e
      | Except.ok tail => Except.ok (if b then c :: tail else tail)

/-- Result of `Query.run`: a `SingleQuery` returns `Component | undefined`
(`single`), a `ManyQuery` returns `Component[]` (`many`). -/
inductive RunResult where
  | single (result : Option Component)
  | many (results : List Component)
deriving DecidableEq

/-- `run` dispatched on the query's type: `SingleQuery.run` is
`component.find(this.matches.bind(this))`, `ManyQuery.run` is
`component.filter(this.matches.bind(this))`. -/
def BaseQuery.run (q : BaseQuery) (components : List Component) : Except JSError RunResult :=
  match q.queryType with
  | QType.single => (jsFind q.matches components).map RunResult.single
  | QType.many => (jsFilter q.matches components).map RunResult.many

/-- State of a `QueryBuilder` object. Both fields are declared without
initializers in the source class, hence both start `undefined` (`none`):
`queryTags` in particular is never initialized to an array anywhere. -/
structure QueryBuilder where
  queryType : Option QType
  queryTags : Option (List TagComparison)
deriving DecidableEq

/-- `new QueryBuilder()`: no field is initialized. -/
def QueryBuilder.fresh : QueryBuilder :=
  { queryType := none, queryTags := none }

/-- `QueryBuilder.One()`: sets `queryType` to `"single"`. -/
def QueryBuilder.One : QueryBuilder :=
  { QueryBuilder.fresh with queryType := some QType.single }

/-- `QueryBuilder.Many()`: sets `queryType` to `"many"`. -/
def QueryBuilder.Many : QueryBuilder :=
  { QueryBuilder.fresh with queryType := some QType.many }

/-- `QueryBuilder.withTag`: `this.queryTags.push({operation, comparison})`.
When `queryTags` is `undefined` (which it always is for builders made by the
source's entry points) the `.push` access throws a TypeError. -/
def QueryBuilder.withTag (b : QueryBuilder) (operation : TagOperation) (comparison : String) :
    Except JSError QueryBuilder :=
  match b.queryTags with
  | none => Except.error JSError.typeError
  | some tags =>
    Except.ok { b with queryTags := some (tags ++ [{ operation := operation, comparison := comparison }]) }

/-- `QueryBuilder.build`: branches on `queryType` and passes
`this.queryTags.slice()` (a by-value copy; `.slice` on `undefined` throws a
TypeError) to the query constructor. When `queryType` is neither `"single"`
nor `"many"` the function falls off the end and returns `undefined` (`none`). -/
def QueryBuilder.build (b : QueryBuilder) : Except JSError (Option BaseQuery) :=
  match b.queryType with
  | some QType.single =>
    match b.queryTags with
    | none => Except.error JSError.typeError
    | some tags => Except.ok (some (BaseQuery.construct QType.single tags))
  | some QType.many =>
    match b.queryTags with
    | none => Except.error JSError.typeError
    | some tags => Except.ok (some (BaseQuery.construct QType.many tags))
  | none => Except.ok none

/-- Behavior of a user-supplied system callback (`onInitialize` or `tick`).
Systems are arbitrary code in the source; the embedding covers the family of
behaviors the claims quantify over: doing nothing, throwing, and re-entrantly
calling `engine.addSystem` with a new system. -/
inductive SysBehavior where
  | noop
  | throwErr
  | addSystem (onInit tickBody : SysBehavior)
deriving DecidableEq

/-- The `System` interface: an `onInitialize` callback and a `tick` callback. -/
structure SystemDef where
  onInitialize : SysBehavior
  tick : SysBehavior
deriving DecidableEq

/-- State of the `Engine`: `_componentTable` is a `Map<string, Component[]>`
(insertion-ordered association list with unique keys) and `_systems` is the
ordered system list. -/
structure Engine where
  _componentTable : List (Entity × List Component)
  _systems : List SystemDef
deriving DecidableEq

/-- A freshly constructed `Engine`: empty table, empty system list. -/
def Engine.empty : Engine :=
  { _componentTable := [], _systems := [] }

/-- `Map.prototype.get`: value of the (unique) entry with the given key. -/
def mapGet : List (Entity × List Component) → Entity → Option (List Component)
  | [], _ => none
  | p :: rest, e => if p.1 = e then some p.2 else mapGet rest e

/-- `Map.prototype.set`: replaces the value of an existing entry in place, or
appends a new entry at the end. -/
def mapSet : List (Entity × List Component) → Entity → List Component → List (Entity × List Component)
  | [], e, v => [(e, v)]
  | p :: rest, e, v => if p.1 = e then (e, v) :: rest else p :: mapSet rest e v

/-- `Map.prototype.delete`: removes the (unique) entry with the given key;
removing an absent key is a no-op. -/
def mapDelete : List (Entity × List Component) → Entity → List (Entity × List Component)
  | [], _ => []
  | p :: rest, e => if p.1 = e then rest else p :: mapDelete rest e

/-- `Engine._getEntity`: looks the entity up in the component table and throws
`Error` ("Entity ... does not exist.") when the lookup is `undefined`. -/
def Engine._getEntity (g : Engine) (entity : Entity) : Except JSError (List Component) :=
  match mapGet g._componentTable entity with
  | none => Except.error (JSError.entityNotFound entity)
  | some rv => Except.ok rv

/-- `Engine.createEntity`: installs an empty component sequence under a fresh
identifier. The `uuid.v4()` call is modelled by taking the generated
identifier as an argument. -/
def Engine.createEntity (g : Engine) (fresh : Entity) : Engine × Entity :=
  ({ g with _componentTable := mapSet g._componentTable fresh [] }, fresh)

/-- `Engine.removeEntity`: `this._componentTable.delete(entity)`. `Map.delete`
never throws; the `Except` result type matches the other entity operations so
that the spec's claimed failure mode is statable. -/
def Engine.removeEntity (g : Engine) (entity : Entity) : Except JSError Engine :=
  Except.ok { g with _componentTable := mapDelete g._componentTable entity }

/-- `Engine.addComponent`: pushes the component onto the entity's sequence and
returns the new length (the return value of `Array.prototype.push`). -/
def Engine.addComponent (g : Engine) (entity : Entity) (component : Component) :
    Except JSError (Engine × Nat) :=
  match g._getEntity entity with
  | Except.error e => Except.error e
  | Except.ok cs =>
    let cs2 := cs ++ [component]
    Except.ok ({ g with _componentTable := mapSet g._componentTable entity cs2 }, cs2.length)

/-- `Array.prototype.indexOf` over components (`===` comparison): index of the
first identical element, `-1` if there is none. -/
def jsIndexOfAux : List Component → Component → Nat → Int
  | [], _, _ => -1
  | c :: rest, x, i => if c = x then (i : Int) else jsIndexOfAux rest x (i + 1)

/-- Entry point of `jsIndexOfAux` at index 0. -/
def jsIndexOf (l : List Component) (c : Component) : Int :=
  jsIndexOfAux l c 0

/-- `Array.prototype.splice(start)` with a single argument: deletes every
element from the actual start index through the end and leaves the elements
before it. A negative `start` counts from the end (so `splice(-1)` deletes the
last element). -/
def jsSpliceFrom (l : List Component) (start : Int) : List Component :=
  let len : Int := (l.length : Int)
  let actualStart : Int := if start < 0 then max (len + start) 0 else min start len
  l.take actualStart.toNat

/-- `Engine.removeComponent`: looks the entity up (throwing when absent), then
`componentSet.splice(componentSet.indexOf(component))`. -/
def Engine.removeComponent (g : Engine) (entity : Entity) (component : Component) :
    Except JSError Engine :=
  match g._getEntity entity with
  | Except.error e => Except.error e
  | Except.ok componentSet =>
    let componentIndex := jsIndexOf componentSet component
    let spliced := jsSpliceFrom componentSet componentIndex
    Except.ok { g with _componentTable := mapSet g._componentTable entity spliced }

/-- `Engine.removeAllComponents`: `componentSet.splice(0, componentSet.length)`
empties the sequence in place. -/
def Engine.removeAllComponents (g : Engine) (entity : Entity) : Except JSError Engine :=
  match g._getEntity entity with
  | Except.error e => Except.error e
  | Except.ok _ => Except.ok { g with _componentTable := mapSet g._componentTable entity [] }

/-- `Engine.queryEntity`: `query.run(this._getEntity(entity))`. -/
def Engine.queryEntity (g : Engine) (entity : Entity) (query : BaseQuery) :
    Except JSError RunResult :=
  match g._getEntity entity with
  | Except.error e => Except.error e
  | Except.ok cs => query.run cs

/-- JavaScript truthiness of a `run` result, as tested by
`if (matchedComponents)` in `Engine.queryAll`: `undefined` is falsy; every
object is truthy — including an empty array. -/
def RunResult.truthy : RunResult → Bool
  | RunResult.single none => false
  | RunResult.single (some _) => true
  | RunResult.many _ => true

/-- Loop body of `Engine.queryAll`: iterates the component table in insertion
order, runs the query on each entity's components, and stores the result under
the entity when it is truthy. An exception from `run` propagates. -/
def queryAllGo (query : BaseQuery) :
    List (Entity × List Component) → Except JSError (List (Entity × RunResult))
  | [] => Except.ok []
  | (e, cs) :: rest =>
    match query.run cs with
    | Except.error err => Except.error err
    | Except.ok r =>
      match queryAllGo query rest with
      | Except.error err => Except.error err
      | Except.ok tail => Except.ok (if r.truthy then (e, r) :: tail else tail)

/-- `Engine.queryAll`: the result object `rv`, as an entity-keyed association
list in table order. -/
def Engine.queryAll (g : Engine) (query : BaseQuery) :
    Except JSError (List (Entity × RunResult)) :=
  queryAllGo query g._componentTable

/-- Runs one system behavior against the engine. Mutations performed before a
throw survive it, so the result is the final engine state plus the exception,
if any, that propagates. A re-entrant `engine.addSystem(s)` pushes `s` and
then runs `s.onInitialize` (the source's `addSystem` body). -/
def runBehavior : SysBehavior → Engine → Engine × Option JSError
  | SysBehavior.noop, g => (g, none)
  | SysBehavior.throwErr, g => (g, some JSError.thrown)
  | SysBehavior.addSystem onInit tickBody, g =>
    runBehavior onInit
      { g with _systems := g._systems ++ [{ onInitialize := onInit, tick := tickBody }] }

/-- `Engine.addSystem`: `this._systems.push(system); system.onInitialize(this);`
— the push happens first, then initialization runs (and may throw). -/
def Engine.addSystem (g : Engine) (system : SystemDef) : Engine × Option JSError :=
  runBehavior system.onInitialize { g with _systems := g._systems ++ [system] }

/-- The `for (const system of this._systems)` loop of `Engine.tick`. A JS
array iterator is index-based over the live array: at step `i` it re-checks
`i < length` and yields element `i`, so elements appended during the loop are
visited too. The returned list is the trace of systems whose `tick` ran, in
invocation order (instrumentation for the temporal claims). A system may keep
appending systems forever, so the loop is bounded by `fuel`; `none` means the
loop did not finish within `fuel` iterations. -/
def tickLoop : Nat → Engine → Nat → Option (Engine × (List SystemDef × Option JSError))
  | 0, _, _ => none
  | fuel + 1, g, i =>
    match g._systems.drop i with
    | [] => some (g, ([], none))
    | s :: _ =>
      let p := runBehavior s.tick g
      match p.2 with
      | some err => some (p.1, ([s], some err))
      | none => (tickLoop fuel p.1 (i + 1)).map fun q => (q.1, (s :: q.2.1, q.2.2))

/-- `Engine.tick`: runs the live-array loop from index 0. -/
def Engine.tick (fuel : Nat) (g : Engine) : Option (Engine × (List SystemDef × Option JSError)) :=
  tickLoop fuel g 0

/-! Concrete objects used by the counterexamples and witnesses. -/

/-- A component with tag `"Health"`, allocation identity 0. -/
def healthA : Component := { tag := "Health", oid := 0 }

/-- A second, distinct component that also has tag `"Health"`. -/
def healthB : Component := { tag := "Health", oid := 1 }

/-- A component with tag `"Position"`. -/
def positionC : Component := { tag := "Position", oid := 2 }

/-- Engine whose table holds one entity `"e1"` with an empty component
sequence. -/
def engineEmptySeq : Engine := { _componentTable := [("e1", [])], _systems := [] }

/-- Engine whose table holds one entity `"e1"` owning `[healthA, healthB,
positionC]`. -/
def engineHealth : Engine :=
  { _componentTable := [("e1", [healthA, healthB, positionC])], _systems := [] }

/-- Engine whose table holds one entity `"a"` with an empty sequence. -/
def engineOneEntity : Engine := { _componentTable := [("a", [])], _systems := [] }

/-- A system whose `onInitialize` throws and whose `tick` does nothing. -/
def sysThrowingInit : SystemDef :=
  { onInitialize := SysBehavior.throwErr, tick := SysBehavior.noop }

/-- A system whose `tick` re-entrantly calls `engine.addSystem` with a system
that does nothing. -/
def sysAdder : SystemDef :=
  { onInitialize := SysBehavior.noop
    tick := SysBehavior.addSystem SysBehavior.noop SysBehavior.noop }

/-- A system that does nothing — the system `sysAdder` appends mid-tick. -/
def sysInert : SystemDef := { onInitialize := SysBehavior.noop, tick := SysBehavior.noop }

/-- Engine with `sysAdder` as its only registered system. -/
def engineAdder : Engine := { _componentTable := [], _systems := [sysAdder] }

/-- State of `engineAdder` after one `tick()`: `sysInert` was appended. -/
def engineAdderAfter : Engine := { _componentTable := [], _systems := [sysAdder, sysInert] }

end ECS

namespace ECS

/-! Helper lemmas about the association-list model of `Map` and about the
system scheduler. -/

/-- A key that occurs nowhere in the list looks up to `none`. -/
theorem mapGet_eq_none_of_not_mem (l : List (Entity × List Component)) (e : Entity)
    (h : e ∉ l.map Prod.fst) : mapGet l e = none := by
  induction l with
  | nil => rfl
  | cons p rest ih =>
    simp only [List.map_cons, List.mem_cons, not_or] at h
    rw [mapGet, if_neg (fun hp => h.1 hp.symm)]
    exact ih h.2

/-- With pairwise-distinct keys (the `Map` invariant), a deleted key looks up
to `none`. -/
theorem mapGet_mapDelete_self (l : List (Entity × List Component)) (e : Entity)
    (h : (l.map Prod.fst).Nodup) : mapGet (mapDelete l e) e = none := by
  induction l with
  | nil => rfl
  | cons p rest ih =>
    simp only [List.map_cons, List.nodup_cons] at h
    by_cases hp : p.1 = e
    · rw [mapDelete, if_pos hp]
      exact mapGet_eq_none_of_not_mem rest e (hp ▸ h.1)
    · rw [mapDelete, if_neg hp, mapGet, if_neg hp]
      exact ih h.2

/-- Running a system behavior only ever appends to the system list. -/
theorem runBehavior_appends (b : SysBehavior) (g : Engine) :
    ∃ t, ((runBehavior b g).1)._systems = g._systems ++ t := by
  induction b generalizing g with
  | noop => exact ⟨[], (List.append_nil _).symm⟩
  | throwErr => exact ⟨[], (List.append_nil _).symm⟩
  | addSystem onInit tickBody ih1 ih2 =>
    obtain ⟨t, ht⟩ :=
      ih1 { g with _systems := g._systems ++ [{ onInitialize := onInit, tick := tickBody }] }
    exact ⟨{ onInitialize := onInit, tick := tickBody } :: t, by
      simpa [runBehavior, List.append_assoc] using ht⟩

/-- Dropping at most the length of the left part of an append drops inside
that left part. -/
theorem drop_append_of_le {α : Type} (l t : List α) :
    ∀ i, i ≤ l.length → (l ++ t).drop i = l.drop i ++ t := by
  induction l with
  | nil =>
    intro i hi
    have : i = 0 := Nat.le_zero.mp hi
    subst this
    simp
  | cons a l ih =>
    intro i hi
    cases i with
    | zero => simp
    | succ i =>
      simp only [List.cons_append, List.drop_succ_cons]
      exact ih i (Nat.le_of_succ_le_succ hi)

/-- Invariant of the live-array `tick` loop: when the loop starting at index
`i` finishes without an exception, the system list has only grown by appended
systems, and the recorded invocation trace is exactly the final system list
from index `i` on. -/
theorem tickLoop_trace_aux (fuel : Nat) :
    ∀ (g : Engine) (i : Nat) (g' : Engine) (tr : List SystemDef),
      tickLoop fuel g i = some (g', (tr, none)) →
      (∃ t, g'._systems = g._systems ++ t) ∧ g'._systems.drop i = tr := by
  induction fuel with
  | zero =>
    intro g i g' tr h
    simp [tickLoop] at h
  | succ fuel ih =>
    intro g i g' tr h
    rw [tickLoop] at h
    cases hd : g._systems.drop i with
    | nil =>
      rw [hd] at h
      simp only [Option.some.injEq, Prod.mk.injEq] at h
      obtain ⟨hg, htr, -⟩ := h
      subst hg
      exact ⟨⟨[], (List.append_nil _).symm⟩, by rw [hd, ← htr]⟩
    | cons s rest =>
      rw [hd] at h
      simp only at h
      cases he : (runBehavior s.tick g).2 with
      | some err =>
        rw [he] at h
        simp at h
      | none =>
        rw [he] at h
        simp only at h
        rw [Option.map_eq_some'] at h
        obtain ⟨⟨qg, qtr, qe⟩, hq, hf⟩ := h
        simp only [Prod.mk.injEq] at hf
        obtain ⟨hg, htr, hqe⟩ := hf
        subst hg
        subst hqe
        obtain ⟨⟨t1, h1⟩, h2⟩ := ih (runBehavior s.tick g).1 (i + 1) qg qtr hq
        obtain ⟨t0, h0⟩ := runBehavior_appends s.tick g
        have hsys : qg._systems = g._systems ++ (t0 ++ t1) := by
          rw [h1, h0, List.append_assoc]
        have hi : i < g._systems.length := by
          by_contra hle
          rw [List.drop_eq_nil_of_le (Nat.le_of_not_lt hle)] at hd
          exact List.noConfusion hd
        have hrest : g._systems.drop (i + 1) = rest := by
          have hcongr := congrArg (List.drop 1) hd
          simpa [List.drop_drop, Nat.add_comm] using hcongr
        refine ⟨⟨t0 ++ t1, hsys⟩, ?_⟩
        rw [← htr, hsys, drop_append_of_le _ _ i (Nat.le_of_lt hi), hd]
        have hqtr : qtr = rest ++ (t0 ++ t1) := by
          rw [← h2, hsys, drop_append_of_le _ _ (i + 1) hi, hrest]
        rw [hqtr]
        simp

/-! The claims. -/

/-- C1: the claim states that for every Query built by the Query Builder,
`matches(c)` returns true iff at least one of its tag comparisons is satisfied
by `c.tag`, with no failure modes. The code violates this: `BaseQuery`'s
constructor assigns `this._queryTags` to itself instead of to its `queryTags`
argument, so the field stays `undefined` and `matches` throws a TypeError on
`undefined.some` for every constructed query and every component — it never
returns a boolean. -/
theorem C1_matches_always_throws (queryType : QType) (tags : List TagComparison)
    (c : Component) :
    (BaseQuery.construct queryType tags).matches c = Except.error JSError.typeError := rfl

/-- C2: the claim states that an entity appears in `queryAll`'s mapping iff
its `run` result is non-empty (many) or defined (single). The code violates
the only-if direction: `if (matchedComponents)` is a JS truthiness test, and
an empty array is truthy, so an entity whose many-arity result is the empty
array is mapped to that empty array instead of being omitted. Witnessed on an
engine with one entity owning no components. -/
theorem C2_queryAll_includes_empty_many_result :
    Engine.queryAll engineEmptySeq (ManyQuery.make []) =
      Except.ok [("e1", RunResult.many [])] ∧
    RunResult.truthy (RunResult.many []) = true := ⟨rfl, rfl⟩

/-- C3: the claim states that `removeComponent` removes exactly the first
identity-equal occurrence, leaves the tail untouched, and fails with
`ComponentNotFound` when the component is absent. The code violates both
parts: `componentSet.splice(componentIndex)` has no delete count, so it
removes the matched component and the entire tail (here `[healthA, healthB,
positionC]` becomes `[]`), and for an absent component `indexOf` yields `-1`,
so `splice(-1)` silently removes the last component instead of failing. -/
theorem C3_removeComponent_truncates_tail :
    Engine.removeComponent engineHealth "e1" healthA =
      Except.ok { _componentTable := [("e1", [])], _systems := [] } ∧
    Engine.removeComponent engineHealth "e1" { tag := "Missing", oid := 9 } =
      Except.ok { _componentTable := [("e1", [healthA, healthB])], _systems := [] } :=
  ⟨rfl, rfl⟩

/-- C4 counterexample: the claim states that `removeEntity` on an absent
entity fails with `EntityNotFound`. The code just calls
`Map.prototype.delete`, which never throws: removing the absent entity
`"ghost"` from an empty engine succeeds and is a no-op. -/
theorem C4_counterexample_removeEntity_silent :
    mapGet Engine.empty._componentTable "ghost" = none ∧
    Engine.removeEntity Engine.empty "ghost" = Except.ok Engine.empty := ⟨rfl, rfl⟩

/-- C4 amended: `removeEntity` always succeeds (a silent no-op on an absent
entity); after it runs, the entity's entry is deleted, and — assuming the
`Map` invariant of pairwise-distinct keys — every subsequent operation that
resolves the entity through `_getEntity` (`addComponent`, `removeComponent`,
`removeAllComponents`, `queryEntity`) fails with `EntityNotFound`. -/
theorem C4_removeEntity_then_not_found (g g' : Engine) (entity : Entity)
    (c : Component) (q : BaseQuery)
    (hnd : (g._componentTable.map Prod.fst).Nodup)
    (h : g.removeEntity entity = Except.ok g') :
    g'._componentTable = mapDelete g._componentTable entity ∧
    g'._getEntity entity = Except.error (JSError.entityNotFound entity) ∧
    Engine.addComponent g' entity c = Except.error (JSError.entityNotFound entity) ∧
    Engine.removeComponent g' entity c = Except.error (JSError.entityNotFound entity) ∧
    Engine.removeAllComponents g' entity = Except.error (JSError.entityNotFound entity) ∧
    Engine.queryEntity g' entity q = Except.error (JSError.entityNotFound entity) := by
  have hg : g' = { g with _componentTable := mapDelete g._componentTable entity } := by
    simpa [Engine.removeEntity] using h.symm
  subst hg
  have hkey : mapGet (mapDelete g._componentTable entity) entity = none :=
    mapGet_mapDelete_self _ _ hnd
  refine ⟨rfl, ?_, ?_, ?_, ?_, ?_⟩ <;>
    simp [Engine._getEntity, Engine.addComponent, Engine.removeComponent,
      Engine.removeAllComponents, Engine.queryEntity, hkey]

/-- C4 witness: the amended theorem applied to the one-entity engine, removing
its entity `"a"`. -/
theorem C4_removeEntity_then_not_found_witness :
    Engine.empty._componentTable = mapDelete engineOneEntity._componentTable "a" ∧
    Engine.empty._getEntity "a" = Except.error (JSError.entityNotFound "a") ∧
    Engine.addComponent Engine.empty "a" { tag := "T", oid := 0 } =
      Except.error (JSError.entityNotFound "a") ∧
    Engine.removeComponent Engine.empty "a" { tag := "T", oid := 0 } =
      Except.error (JSError.entityNotFound "a") ∧
    Engine.removeAllComponents Engine.empty "a" = Except.error (JSError.entityNotFound "a") ∧
    Engine.queryEntity Engine.empty "a" (SingleQuery.make []) =
      Except.error (JSError.entityNotFound "a") :=
  C4_removeEntity_then_not_found engineOneEntity Engine.empty "a"
    { tag := "T", oid := 0 } (SingleQuery.make []) (by decide) rfl

/-- C5: the claim states that a single-arity `run(S)` returns the first
element of `S` satisfying `matches`, or an explicit no-match result, and never
raises. The code violates this: because the constructor leaves `_queryTags`
undefined, `matches` throws a TypeError the first time `Array.prototype.find`
invokes it, so `run` throws on every non-empty sequence (on the empty
sequence the predicate is never called and `undefined` is returned). -/
theorem C5_singleQuery_run_throws_on_nonempty (tags : List TagComparison)
    (c : Component) (rest : List Component) :
    (SingleQuery.make tags).run (c :: rest) = Except.error JSError.typeError ∧
    (SingleQuery.make tags).run [] = Except.ok (RunResult.single none) := ⟨rfl, rfl⟩

/-- C6: the claim states that a many-arity `run(S)` is the maximal
order-preserving subsequence of `S` whose elements satisfy `matches`. The
code violates this the same way as C5: `Array.prototype.filter` invokes the
throwing `matches` on the first element, so `run` throws on every non-empty
sequence and only the empty sequence yields the (empty) subsequence. -/
theorem C6_manyQuery_run_throws_on_nonempty (tags : List TagComparison)
    (c : Component) (rest : List Component) :
    (ManyQuery.make tags).run (c :: rest) = Except.error JSError.typeError ∧
    (ManyQuery.make tags).run [] = Except.ok (RunResult.many []) := ⟨rfl, rfl⟩

/-- C7: the claim states that `build()` before an arity has been selected
fails fast with `InvalidState`. The code violates this: with `queryType`
undefined both branches are skipped, the function falls off the end, and
`undefined` is returned silently (contradicting the declared return type
`Query`); no error is raised. -/
theorem C7_build_without_arity_returns_undefined :
    QueryBuilder.fresh.build = Except.ok none := rfl

/-- C8: the claim states that builders with the same arity and identical
`withTag` call sequences produce queries with identical match behavior, and
that `build()`'s by-value copy insulates built queries from later builder
mutation. The code cannot exhibit any of this: the `queryTags` field is never
initialized to an array, so the very first `withTag` call throws a TypeError
on `undefined.push`, and `build()` on a builder from either entry point
throws a TypeError on `undefined.slice` — no Query is ever produced by the
builder. -/
theorem C8_builder_withTag_and_build_throw (operation : TagOperation) (comparison : String) :
    QueryBuilder.One.withTag operation comparison = Except.error JSError.typeError ∧
    QueryBuilder.Many.withTag operation comparison = Except.error JSError.typeError ∧
    QueryBuilder.One.build = Except.error JSError.typeError ∧
    QueryBuilder.Many.build = Except.error JSError.typeError := ⟨rfl, rfl, rfl, rfl⟩

/-- C9 counterexample: the claim states that when `onInitialize` fails during
`addSystem`, the system is not left registered. The code pushes the system
before initializing it and never rolls back: adding `sysThrowingInit` to an
empty engine propagates the exception, yet the final system list contains the
system. -/
theorem C9_counterexample_failed_system_registered :
    Engine.addSystem Engine.empty sysThrowingInit =
      ({ _componentTable := [], _systems := [sysThrowingInit] }, some JSError.thrown) := rfl

/-- C9 amended: `addSystem` propagates exactly the outcome of running the
system's `onInitialize` (so initialization failures reach the caller), but
the system is registered in the system list regardless, because the push
happens before initialization and is not undone on error. -/
theorem C9_addSystem_propagates_but_registers (g : Engine) (s : SystemDef) :
    s ∈ (Engine.addSystem g s).1._systems ∧
    (Engine.addSystem g s).2 =
      (runBehavior s.onInitialize { g with _systems := g._systems ++ [s] }).2 := by
  refine ⟨?_, rfl⟩
  obtain ⟨t, ht⟩ := runBehavior_appends s.onInitialize { g with _systems := g._systems ++ [s] }
  show s ∈ (runBehavior s.onInitialize { g with _systems := g._systems ++ [s] }).1._systems
  rw [ht]
  simp

/-- C10 counterexample: the claim states that a system appended to the system
list from within a tick is never invoked during that same `tick()` call. The
code iterates the live array with `for...of`, so the appended system is
visited: starting from `[sysAdder]`, whose tick appends `sysInert`, the
invocation trace of a single `tick()` is `[sysAdder, sysInert]` although
`sysInert` was not registered before the call. -/
theorem C10_counterexample_midtick_append_runs :
    Engine.tick 3 engineAdder = some (engineAdderAfter, ([sysAdder, sysInert], none)) ∧
    sysInert ∉ engineAdder._systems := ⟨rfl, by decide⟩

/-- C10 amended: when a `tick()` call finishes without an exception, its
invocation trace is exactly the final system list — every system registered
before the call is invoked exactly once, strictly in registration order, and
the systems appended during the call are then also invoked, once each, in
order of addition, during that same call. -/
theorem C10_tick_trace (fuel : Nat) (g g' : Engine) (tr : List SystemDef)
    (h : Engine.tick fuel g = some (g', (tr, none))) :
    tr = g'._systems ∧ ∃ t, g'._systems = g._systems ++ t := by
  obtain ⟨hpre, hdrop⟩ := tickLoop_trace_aux fuel g 0 g' tr h
  exact ⟨by simpa using hdrop.symm, hpre⟩

/-- C10 witness: the amended theorem applied to the engine whose only system
appends another system mid-tick. -/
theorem C10_tick_trace_witness :
    [sysAdder, sysInert] = engineAdderAfter._systems ∧
    ∃ t, engineAdderAfter._systems = engineAdder._systems ++ t :=
  C10_tick_trace 3 engineAdder engineAdderAfter [sysAdder, sysInert] rfl

end ECS
